import Mathlib

/-!
Verification development for the `stress-testing` repository.

The Python source is shallowly embedded: floats become rationals (`ℚ`),
Python dicts become association lists with insertion-order semantics
(`dictGet`, `dictInsert`), attribute probing on duck-typed instruments
becomes `Option` fields, and code paths that can raise Python exceptions
(AttributeError, KeyError, IndexError, ValueError) return
`Except String`.  Each definition mirrors one function of the source
(`stress_testing/core/*.py`, `stress_testing/calculators/*.py`,
`stress_testing/engine/stress_engine.py`, `stress_testing/scenarios/epr.py`).
-/

set_option linter.unusedVariables false

/-- Python dict lookup on an association list: first matching key wins
(our dicts never hold duplicate keys, so this is exact dict semantics). -/
def dictGet {α β : Type} [DecidableEq α] : List (α × β) → α → Option β
  | [], _ => none
  | p :: rest, key => if p.1 = key then some p.2 else dictGet rest key

/-- Python `key in dict`. -/
def dictContains {α β : Type} [DecidableEq α] (d : List (α × β)) (key : α) : Bool :=
  (dictGet d key).isSome

/-- Python `d[key] = v`: replaces in place when the key exists
(keeping its position, as CPython dicts do), else appends. -/
def dictInsert {α β : Type} [DecidableEq α] (d : List (α × β)) (key : α) (v : β) :
    List (α × β) :=
  if dictContains d key then
    d.map (fun p => if p.1 = key then (key, v) else p)
  else
    d ++ [(key, v)]

/-- Embeds `stress_testing/core/enums.py` — `RiskDimension`. -/
inductive RiskDimension : Type
  | price
  | volatility
  | time
  | interest_rate
  | dividend_yield
deriving DecidableEq, Repr

/-- The `.value` string of each `RiskDimension` member, used as a
parameter-dict key by the engine. -/
def RiskDimension.param_name : RiskDimension → String
  | RiskDimension.price => "price"
  | RiskDimension.volatility => "volatility"
  | RiskDimension.time => "time"
  | RiskDimension.interest_rate => "interest_rate"
  | RiskDimension.dividend_yield => "dividend_yield"

/-- Embeds `stress_testing/core/enums.py` — `AggregationType`. -/
inductive AggregationType : Type
  | by_underlying
  | by_factor
  | total
deriving DecidableEq, Repr

/-- Embeds `stress_testing/core/risk_array.py` — `RiskArray` (the numpy value
array becomes a list of rationals). -/
structure RiskArray : Type where
  dimension : RiskDimension
  values : List ℚ
  is_relative : Bool
deriving DecidableEq, Repr

/-- Embeds `stress_testing/core/factor.py` — `Factor`. -/
structure Factor : Type where
  name : String
  underlying_factors : List (String × ℚ)
  benchmark_symbol : Option String
deriving DecidableEq, Repr

/-- Embeds `Factor.get_factor`: mapped multiplier, or the neutral `1.0` when the
symbol is absent. -/
def Factor.get_factor (f : Factor) (symbol : String) : ℚ :=
  (dictGet f.underlying_factors symbol).getD 1

/-- Embeds `stress_testing/core/scenario.py` — `StressScenario`.  The optional
`underlying_risk_arrays` dict becomes an optional association list. -/
structure StressScenario : Type where
  name : String
  risk_arrays : List RiskArray
  factor : Option Factor
  aggregation_type : AggregationType
  underlying_risk_arrays : Option (List (String × List RiskArray))
deriving DecidableEq, Repr

/-- Python truthiness of `scenario.underlying_risk_arrays` as tested by
`run_scenario` and `get_stress_points`: present and non-empty. -/
def StressScenario.is_idiosyncratic (s : StressScenario) : Bool :=
  match s.underlying_risk_arrays with
  | none => false
  | some l => !l.isEmpty

/-- Embeds `itertools.product` over the value lists, first list varying slowest. -/
def cartProd : List (List ℚ) → List (List ℚ)
  | [] => [[]]
  | xs :: rest => xs.flatMap (fun x => (cartProd rest).map (fun combo => x :: combo))

/-- Embeds `StressScenario.get_stress_points`.  A stress point is the Python dict
`RiskDimension -> float`.  For idiosyncratic scenarios the source returns a
one-element marker dict keyed by a string (never read by the engine, which
routes idiosyncratic scenarios before expanding); it is modelled as one
empty point. -/
def StressScenario.get_stress_points (s : StressScenario) :
    List (List (RiskDimension × ℚ)) :=
  if s.is_idiosyncratic then
    [[]]
  else
    match s.risk_arrays with
    | [ra] => ra.values.map (fun v => [(ra.dimension, v)])
    | ras =>
      (cartProd (ras.map (fun ra => ra.values))).map (fun combo =>
        (List.zip ras combo).foldl
          (fun point p => dictInsert point p.1.dimension p.2) [])

/-- An instrument is an opaque duck-typed record: each optional field is a
Python attribute that may or may not exist.  `yield_attr` models an
attribute literally named `yield` (the engine's dividend probe tests for
it); `type_name` is `type(instrument).__name__`. -/
structure Instrument : Type where
  type_name : String
  price : Option ℚ
  iv : Option ℚ
  dte : Option ℚ
  risk_free : Option ℚ
  dividend_yield : Option ℚ
  yield_attr : Option ℚ
  underlying : Option String
  symbol : Option String
deriving DecidableEq, Repr

/-- Python attribute access `instrument.price`: raises `AttributeError`
when the attribute is missing. -/
def Instrument.get_price (instrument : Instrument) : Except String ℚ :=
  match instrument.price with
  | some p => Except.ok p
  | none => Except.error "AttributeError: price"

/-- A position of the (external) portfolio. -/
structure Position : Type where
  id : String
  instrument : Instrument
  quantity : ℚ
deriving DecidableEq, Repr

/-- The (external) portfolio: an ordered sequence of positions. -/
structure Portfolio : Type where
  positions : List Position
deriving DecidableEq, Repr

/-- Embeds `stress_testing/core/result.py` — `StressResult`. -/
structure StressResult : Type where
  scenario_name : String
  position_id : String
  underlying : String
  instrument_type : String
  quantity : ℚ
  base_value : ℚ
  stress_points : List ℚ
  pnl_values : List ℚ
deriving DecidableEq, Repr

/-- Embeds `stress_testing/core/result.py` — `ScenarioResults`. -/
structure ScenarioResults : Type where
  scenario_name : String
  stress_points : List ℚ
  position_results : List StressResult
  aggregation_results : List (String × List ℚ)
deriving DecidableEq, Repr

/-- Embeds `stress_testing/calculators/relative.py`. -/
def RelativeStressCalculator.calculate_stressed_value
    (base_value stress_pct factor : ℚ) : ℚ :=
  base_value * (1 + stress_pct * factor)

/-- Embeds `stress_testing/calculators/absolute.py`. -/
def AbsoluteStressCalculator.calculate_stressed_value
    (base_value stress_value factor : ℚ) : ℚ :=
  base_value + stress_value * factor

/-- The engine's `stress_calculators` dict built in `__init__`, keyed by a
boolean (`True` ↦ relative, `False` ↦ absolute). -/
def stress_calculators (is_relative : Bool) : ℚ → ℚ → ℚ → ℚ :=
  if is_relative then RelativeStressCalculator.calculate_stressed_value
  else AbsoluteStressCalculator.calculate_stressed_value

/-- A pricing function of the injected registry: takes the instrument and
the stressed parameter dict, returns the stressed unit price. -/
def Pricer : Type := Instrument → List (String × ℚ) → ℚ

/-- Embeds `stress_testing/engine/stress_engine.py` — `StressTestEngine` holds the
portfolio and the pricing-model registry. -/
structure StressTestEngine : Type where
  portfolio : Portfolio
  pricing_models : List (String × Pricer)

/-- Sequential effectful map over a list in the `Except` monad, written
out structurally: the first error aborts, exactly like a Python `for`
loop whose body may raise. -/
def mapExcept {α β : Type} (f : α → Except String β) :
    List α → Except String (List β)
  | [] => Except.ok []
  | x :: xs =>
    match f x with
    | Except.error msg => Except.error msg
    | Except.ok y =>
      match mapExcept f xs with
      | Except.error msg => Except.error msg
      | Except.ok ys => Except.ok (y :: ys)

/-- Embeds `StressTestEngine._get_instrument_params`: capability probing over
the instrument attributes.  The source's dividend branch tests
`hasattr(instrument, 'yield')` but then reads
`instrument.dividend_yield`, which raises `AttributeError` when the
latter is missing — modelled exactly. -/
def StressTestEngine.get_instrument_params (instrument : Instrument) :
    Except String (List (String × ℚ)) :=
  let params : List (String × ℚ) := []
  let params := match instrument.price with
    | some v => dictInsert params "price" v
    | none => params
  let params := match instrument.iv with
    | some v => dictInsert params "volatility" v
    | none => params
  let params := match instrument.dte with
    | some v => dictInsert params "time" v
    | none => params
  let params := match instrument.risk_free with
    | some v => dictInsert params "interest_rate" v
    | none => params
  if instrument.yield_attr.isSome then
    match instrument.dividend_yield with
    | some v => Except.ok (dictInsert params "dividend_yield" v)
    | none => Except.error "AttributeError: dividend_yield"
  else
    Except.ok params

/-- Embeds `StressTestEngine._get_underlying_symbol`. -/
def StressTestEngine.get_underlying_symbol (instrument : Instrument) : String :=
  match instrument.underlying with
  | some u => u
  | none =>
    match instrument.symbol with
    | some s => s
    | none => "unknown"

/-- The factor-multiplier lookup inside `_apply_stress`: `factor and
hasattr(instrument, 'underlying')`, else `factor and
hasattr(instrument, 'symbol')`, else the neutral `1.0`. -/
def StressTestEngine.factor_value (instrument : Instrument)
    (factor : Option Factor) : ℚ :=
  match factor with
  | none => 1
  | some f =>
    match instrument.underlying with
    | some u => f.get_factor u
    | none =>
      match instrument.symbol with
      | some s => f.get_factor s
      | none => 1

/-- One iteration of the `for dimension, stress_value in
stress_point.items()` loop of `_apply_stress`. -/
def applyStressStep (base_params : List (String × ℚ)) (instrument : Instrument)
    (factor : Option Factor) (stressed_params : List (String × ℚ))
    (dv : RiskDimension × ℚ) : List (String × ℚ) :=
  let param_name := dv.1.param_name
  if dictContains base_params param_name then
    if dv.1 = RiskDimension.time then
      dictInsert stressed_params param_name
        (max 0 ((dictGet base_params param_name).getD 0 - dv.2))
    else
      dictInsert stressed_params param_name
        (stress_calculators true ((dictGet base_params param_name).getD 0) dv.2
          (StressTestEngine.factor_value instrument factor))
  else
    stressed_params

/-- Embeds `StressTestEngine._apply_stress`: starts from a copy of the base
parameters and overwrites each parameter targeted by the stress point.
Note the source indexes `self.stress_calculators[True]` — the relative
calculator — for every non-TIME dimension. -/
def StressTestEngine.apply_stress (base_params : List (String × ℚ))
    (stress_point : List (RiskDimension × ℚ)) (instrument : Instrument)
    (factor : Option Factor) : List (String × ℚ) :=
  stress_point.foldl (applyStressStep base_params instrument factor) base_params

/-- Embeds `StressTestEngine._price_instrument`: registered pricer, else the
`price` parameter, else `0`. -/
def StressTestEngine.price_instrument (engine : StressTestEngine)
    (instrument : Instrument) (params : List (String × ℚ)) : ℚ :=
  match dictGet engine.pricing_models instrument.type_name with
  | some pricer => pricer instrument params
  | none => (dictGet params "price").getD 0

/-- The body of the per-stress-point loop of `run_scenario` (also reused
verbatim by the idiosyncratic path): extract parameters, stress them,
reprice, and compute `quantity * stressed - quantity * base` where the
base unit price is the raw `instrument.price` attribute. -/
def StressTestEngine.position_pnl (engine : StressTestEngine)
    (scenario : StressScenario) (position : Position)
    (stress_point : List (RiskDimension × ℚ)) : Except String ℚ :=
  match StressTestEngine.get_instrument_params position.instrument with
  | Except.error msg => Except.error msg
  | Except.ok base_params =>
    let stressed_params := StressTestEngine.apply_stress base_params
      stress_point position.instrument scenario.factor
    let stressed_value := engine.price_instrument position.instrument
      stressed_params
    match position.instrument.get_price with
    | Except.error msg => Except.error msg
    | Except.ok p =>
      Except.ok (position.quantity * stressed_value - position.quantity * p)

/-- The per-position body of `run_scenario`: P&L over all stress points,
then the `StressResult` record (whose `base_value` again reads the raw
`instrument.price` attribute). -/
def StressTestEngine.run_position (engine : StressTestEngine)
    (scenario : StressScenario) (stress_points : List (List (RiskDimension × ℚ)))
    (stress_values : List ℚ) (position : Position) :
    Except String StressResult :=
  match mapExcept (engine.position_pnl scenario position) stress_points with
  | Except.error msg => Except.error msg
  | Except.ok pnl_values =>
    match position.instrument.get_price with
    | Except.error msg => Except.error msg
    | Except.ok p =>
      Except.ok
        { scenario_name := scenario.name
          position_id := position.id
          underlying := StressTestEngine.get_underlying_symbol position.instrument
          instrument_type := position.instrument.type_name
          quantity := position.quantity
          base_value := position.quantity * p
          stress_points := stress_values
          pnl_values := pnl_values }

/-- numpy-style elementwise addition of two P&L arrays (the source adds
arrays of equal length; `zipWith` agrees on that domain). -/
def zipAdd (a b : List ℚ) : List ℚ :=
  List.zipWith (fun x y => x + y) a b

/-- Embeds `np.zeros_like` on a P&L array. -/
def zerosLike (a : List ℚ) : List ℚ :=
  List.replicate a.length 0

/-- One iteration of the BY_UNDERLYING loop of `_calculate_aggregation`:
seed the bucket with zeros on first sight of an underlying, then add. -/
def aggStep (aggregated : List (String × List ℚ)) (result : StressResult) :
    List (String × List ℚ) :=
  match dictGet aggregated result.underlying with
  | none =>
    dictInsert aggregated result.underlying
      (zipAdd (zerosLike result.pnl_values) result.pnl_values)
  | some current =>
    dictInsert aggregated result.underlying (zipAdd current result.pnl_values)

/-- Embeds `StressTestEngine._calculate_aggregation`.  TOTAL indexes
`position_results[0]` (IndexError on an empty list); the function has no
BY_FACTOR branch, so that case falls through to the empty dict. -/
def StressTestEngine.calculate_aggregation
    (position_results : List StressResult)
    (aggregation_type : AggregationType) :
    Except String (List (String × List ℚ)) :=
  match aggregation_type with
  | AggregationType.by_underlying =>
    Except.ok (position_results.foldl aggStep [])
  | AggregationType.total =>
    match position_results with
    | [] => Except.error "IndexError: list index out of range"
    | first :: _ =>
      Except.ok
        [("total",
          position_results.foldl (fun acc result => zipAdd acc result.pnl_values)
            (zerosLike first.pnl_values))]
  | AggregationType.by_factor => Except.ok []

/-- The `stress_values` display axis of `run_scenario`: a single risk
array contributes its own dimension's value (`pt[dimension]`, KeyError
if absent); multi-array scenarios prefer PRICE, else the first value in
the point's insertion order (`list(pt.values())[0]`, IndexError when the
point is empty). -/
def StressTestEngine.display_values (scenario : StressScenario)
    (stress_points : List (List (RiskDimension × ℚ))) :
    Except String (List ℚ) :=
  match scenario.risk_arrays with
  | [ra] =>
    mapExcept (fun pt =>
      match dictGet pt ra.dimension with
      | some v => Except.ok v
      | none => Except.error "KeyError") stress_points
  | _ =>
    mapExcept (fun pt =>
      match dictGet pt RiskDimension.price with
      | some v => Except.ok v
      | none =>
        match pt with
        | [] => Except.error "IndexError: list index out of range"
        | p :: _ => Except.ok p.2) stress_points

/-- Embeds `np.max(np.abs(values))` — ValueError on an empty array. -/
def maxAbs : List ℚ → Except String ℚ
  | [] => Except.error "ValueError: zero-size array reduction"
  | x :: xs => Except.ok (xs.foldl (fun m v => max m |v|) |x|)

/-- The fraction-axis derivation at the top of
`_run_idiosyncratic_scenario`: if some underlying's (non-empty) risk
arrays start with a PRICE array, normalize the FIRST underlying's first
array by its maximum absolute value; degenerate cases fall back to the
default axis `[-1, 1]`. -/
def StressTestEngine.stress_fractions (scenario : StressScenario) :
    Except String (List ℚ) :=
  let ura := scenario.underlying_risk_arrays.getD []
  match ura.find? (fun p =>
      match p.2.head? with
      | some ra => decide (ra.dimension = RiskDimension.price)
      | none => false) with
  | none => Except.ok [-1, 1]
  | some _ =>
    match ura with
    | [] => Except.ok [-1, 1]
    | (_, risk_arrays) :: _ =>
      match risk_arrays with
      | [] => Except.error "IndexError: list index out of range"
      | first_epr :: _ =>
        match maxAbs first_epr.values with
        | Except.error msg => Except.error msg
        | Except.ok max_val =>
          if 0 < max_val then
            Except.ok (first_epr.values.map (fun v => v / max_val))
          else
            Except.ok [-1, 1]

/-- The P&L loop of the per-position body of
`_run_idiosyncratic_scenario`: an underlying absent from
`underlying_risk_arrays` gets a zero P&L array; otherwise the first risk
array's values drive one PRICE stress point each (an empty risk-array
list raises IndexError at `risk_arrays[0]`). -/
def StressTestEngine.idio_position_pnl (engine : StressTestEngine)
    (scenario : StressScenario) (fractions : List ℚ) (position : Position) :
    Except String (List ℚ) :=
  match dictGet (scenario.underlying_risk_arrays.getD [])
      (StressTestEngine.get_underlying_symbol position.instrument) with
  | none => Except.ok (List.replicate fractions.length (0 : ℚ))
  | some risk_arrays =>
    match risk_arrays with
    | [] => Except.error "IndexError: list index out of range"
    | ra :: _ =>
      mapExcept (fun stress_value =>
        engine.position_pnl scenario position
          [(RiskDimension.price, stress_value)]) ra.values

/-- The per-position body of `_run_idiosyncratic_scenario`: the P&L loop
above followed by the `StressResult` record (whose `base_value` reads the
raw `instrument.price` attribute). -/
def StressTestEngine.idio_position_result (engine : StressTestEngine)
    (scenario : StressScenario) (fractions : List ℚ) (position : Position) :
    Except String StressResult :=
  match engine.idio_position_pnl scenario fractions position with
  | Except.error msg => Except.error msg
  | Except.ok pnl_values =>
    match position.instrument.get_price with
    | Except.error msg => Except.error msg
    | Except.ok p =>
      Except.ok
        { scenario_name := scenario.name
          position_id := position.id
          underlying := StressTestEngine.get_underlying_symbol position.instrument
          instrument_type := position.instrument.type_name
          quantity := position.quantity
          base_value := position.quantity * p
          stress_points := fractions
          pnl_values := pnl_values }

/-- Embeds `StressTestEngine._run_idiosyncratic_scenario`. -/
def StressTestEngine.run_idiosyncratic_scenario (engine : StressTestEngine)
    (scenario : StressScenario) : Except String ScenarioResults :=
  match StressTestEngine.stress_fractions scenario with
  | Except.error msg => Except.error msg
  | Except.ok all_stress_fractions =>
    match mapExcept (engine.idio_position_result scenario all_stress_fractions)
        engine.portfolio.positions with
    | Except.error msg => Except.error msg
    | Except.ok position_results =>
      match StressTestEngine.calculate_aggregation position_results
          scenario.aggregation_type with
      | Except.error msg => Except.error msg
      | Except.ok aggregation_results =>
        Except.ok
          { scenario_name := scenario.name
            stress_points := all_stress_fractions
            position_results := position_results
            aggregation_results := aggregation_results }

/-- Embeds `StressTestEngine.run_scenario`. -/
def StressTestEngine.run_scenario (engine : StressTestEngine)
    (scenario : StressScenario) : Except String ScenarioResults :=
  if scenario.is_idiosyncratic then
    engine.run_idiosyncratic_scenario scenario
  else
    match StressTestEngine.display_values scenario scenario.get_stress_points with
    | Except.error msg => Except.error msg
    | Except.ok stress_values =>
      match mapExcept
          (engine.run_position scenario scenario.get_stress_points stress_values)
          engine.portfolio.positions with
      | Except.error msg => Except.error msg
      | Except.ok position_results =>
        match StressTestEngine.calculate_aggregation position_results
            scenario.aggregation_type with
        | Except.error msg => Except.error msg
        | Except.ok aggregation_results =>
          Except.ok
            { scenario_name := scenario.name
              stress_points := stress_values
              position_results := position_results
              aggregation_results := aggregation_results }

/-- Embeds `np.linspace start stop num` with the default inclusive endpoint. -/
def linspace (start stop : ℚ) (num : ℕ) : List ℚ :=
  if num = 0 then []
  else if num = 1 then [start]
  else (List.range num).map (fun i => start + (stop - start) * i / (num - 1))

/-- Embeds `stress_testing/scenarios/epr.py` — `build_epr_stress_scenario`. -/
def build_epr_stress_scenario (name : String) (epr_map : List (String × ℚ))
    (n_steps : ℕ) (include_base : Bool) : StressScenario :=
  let underlying_risk_arrays := epr_map.map (fun se =>
    let epr := se.2
    let values :=
      if 0 < n_steps then
        let fractions := linspace (1 / (n_steps : ℚ)) 1 n_steps
        let up_values := fractions.map (fun f => f * epr)
        let down_values := fractions.map (fun f => -f * epr)
        if include_base then
          down_values.reverse ++ [0] ++ up_values
        else
          down_values.reverse ++ up_values
      else [-epr, epr]
    (se.1,
      [{ dimension := RiskDimension.price, values := values,
         is_relative := true : RiskArray }]))
  { name := name
    risk_arrays := []
    factor := none
    aggregation_type := AggregationType.by_underlying
    underlying_risk_arrays := some underlying_risk_arrays }

section DictLemmas

variable {α β : Type} [DecidableEq α]

theorem dictGet_nil (k : α) : dictGet ([] : List (α × β)) k = none := rfl

theorem dictGet_cons (p : α × β) (rest : List (α × β)) (k : α) :
    dictGet (p :: rest) k = if p.1 = k then some p.2 else dictGet rest k := rfl

theorem dictGet_eq_none_forall {d : List (α × β)} {k : α}
    (h : dictGet d k = none) : ∀ p ∈ d, p.1 ≠ k := by
  induction d with
  | nil => intro p hp; cases hp
  | cons q rest ih =>
    intro p hp
    rw [dictGet_cons] at h
    by_cases hq : q.1 = k
    · rw [if_pos hq] at h; cases h
    · rw [if_neg hq] at h
      rcases List.mem_cons.mp hp with hp2 | hp2
      · rw [hp2]; exact hq
      · exact ih h p hp2

theorem dictGet_append (d1 d2 : List (α × β)) (k : α) :
    dictGet (d1 ++ d2) k =
      match dictGet d1 k with
      | some v => some v
      | none => dictGet d2 k := by
  induction d1 with
  | nil => simp [dictGet]
  | cons p rest ih =>
    by_cases hp : p.1 = k
    · simp [dictGet_cons, hp]
    · simpa [dictGet_cons, hp] using ih

theorem dictGet_map_replace_self (d : List (α × β)) (k : α) (v : β)
    (h : dictContains d k = true) :
    dictGet (d.map (fun p => if p.1 = k then (k, v) else p)) k = some v := by
  induction d with
  | nil => simp [dictContains, dictGet] at h
  | cons p rest ih =>
    by_cases hp : p.1 = k
    · simp [dictGet_cons, hp]
    · have h2 : dictContains rest k = true := by
        simpa [dictContains, dictGet_cons, hp] using h
      simpa [dictGet_cons, hp] using ih h2

theorem dictGet_map_replace_ne (d : List (α × β)) (k : α) (v : β) {k2 : α}
    (hne : k2 ≠ k) :
    dictGet (d.map (fun p => if p.1 = k then (k, v) else p)) k2 = dictGet d k2 := by
  induction d with
  | nil => rfl
  | cons p rest ih =>
    rw [List.map_cons, dictGet_cons, dictGet_cons]
    by_cases hp : p.1 = k
    · rw [if_pos hp]
      have h1 : ¬((k, v).1 = k2) := fun hc => hne (hc.symm)
      have h2 : ¬(p.1 = k2) := fun hc => hne (by rw [← hc, hp])
      rw [if_neg h1, if_neg h2, ih]
    · rw [if_neg hp]
      by_cases hp2 : p.1 = k2
      · rw [if_pos hp2, if_pos hp2]
      · rw [if_neg hp2, if_neg hp2, ih]

theorem dictGet_dictInsert (d : List (α × β)) (k : α) (v : β) (k2 : α) :
    dictGet (dictInsert d k v) k2 = if k2 = k then some v else dictGet d k2 := by
  unfold dictInsert
  by_cases h : dictContains d k = true
  · rw [if_pos h]
    by_cases hk : k2 = k
    · subst hk
      rw [if_pos rfl]
      exact dictGet_map_replace_self _ _ _ h
    · rw [if_neg hk, dictGet_map_replace_ne d k v hk]
  · rw [if_neg (by simpa using h)]
    have hnone : dictGet d k = none :=
      Option.not_isSome_iff_eq_none.mp (by simpa [dictContains] using h)
    by_cases hk : k2 = k
    · subst hk
      simp [dictGet_append, hnone, dictGet_cons]
    · rw [if_neg hk, dictGet_append]
      have hsingle : dictGet [(k, v)] k2 = none := by
        rw [dictGet_cons, if_neg (fun hc : (k, v).1 = k2 => hk hc.symm)]
        rfl
      cases hg : dictGet d k2 <;> simp [hg, hsingle]

theorem dictContains_dictInsert (d : List (α × β)) (k : α) (v : β) (k2 : α) :
    dictContains (dictInsert d k v) k2 =
      (decide (k2 = k) || dictContains d k2) := by
  by_cases hk : k2 = k <;>
    simp [dictContains, dictGet_dictInsert, hk]

theorem dictInsert_append_left (acc1 acc2 : List (α × β)) (k : α) (v : β)
    (h : dictContains acc1 k = false) :
    dictInsert (acc1 ++ acc2) k v = acc1 ++ dictInsert acc2 k v := by
  have hnone : dictGet acc1 k = none :=
    Option.not_isSome_iff_eq_none.mp (by simp [dictContains] at h; simp [h])
  have hc : dictContains (acc1 ++ acc2) k = dictContains acc2 k := by
    simp [dictContains, dictGet_append, hnone]
  have hmap : acc1.map (fun p => if p.1 = k then (k, v) else p) = acc1 := by
    have := dictGet_eq_none_forall hnone
    calc acc1.map (fun p => if p.1 = k then (k, v) else p)
        = acc1.map id := List.map_congr_left (fun p hp => by
          simp [if_neg (this p hp)])
      _ = acc1 := List.map_id acc1
  unfold dictInsert
  rw [hc]
  by_cases h2 : dictContains acc2 k = true
  · rw [if_pos h2, if_pos h2, List.map_append, hmap]
  · rw [if_neg (by simpa using h2), if_neg (by simpa using h2), List.append_assoc]

end DictLemmas

theorem mapExcept_ok_forall {α β : Type} {f : α → Except String β} :
    ∀ {l : List α} {ys : List β}, mapExcept f l = Except.ok ys →
      ∀ x ∈ l, ∃ y, f x = Except.ok y := by
  intro l
  induction l with
  | nil => intro ys h x hx; cases hx
  | cons a rest ih =>
    intro ys h x hx
    unfold mapExcept at h
    cases hfa : f a with
    | error msg => rw [hfa] at h; cases h
    | ok y =>
      rw [hfa] at h
      cases hrest : mapExcept f rest with
      | error msg => rw [hrest] at h; cases h
      | ok ys2 =>
        rcases List.mem_cons.mp hx with hx2 | hx2
        · exact ⟨y, hx2 ▸ hfa⟩
        · exact ih hrest x hx2

/-- Frame property of the `_apply_stress` fold: a parameter named by no
dimension of the point is untouched, whatever the accumulator. -/
theorem foldl_applyStressStep_frame (base_params : List (String × ℚ))
    (inst : Instrument) (factor : Option Factor) (p : String) :
    ∀ (sp : List (RiskDimension × ℚ)),
      (∀ dv ∈ sp, RiskDimension.param_name dv.1 ≠ p) →
      ∀ acc,
        dictGet (sp.foldl (applyStressStep base_params inst factor) acc) p
          = dictGet acc p := by
  intro sp
  induction sp with
  | nil => intro h acc; rfl
  | cons dv rest ih =>
    intro h acc
    rw [List.foldl_cons, ih (fun d2 h2 => h d2 (List.mem_cons_of_mem _ h2))]
    have hd : RiskDimension.param_name dv.1 ≠ p := h dv (List.mem_cons_self _ _)
    unfold applyStressStep
    by_cases hc : dictContains base_params dv.1.param_name = true
    · rw [if_pos hc]
      by_cases ht : dv.1 = RiskDimension.time
      · rw [if_pos ht, dictGet_dictInsert,
          if_neg (fun h2 : p = dv.1.param_name => hd h2.symm)]
      · rw [if_neg ht, dictGet_dictInsert,
          if_neg (fun h2 : p = dv.1.param_name => hd h2.symm)]
    · rw [if_neg hc]

/-- C9: for every base-parameter mapping and every shock point, applying
stress leaves every parameter whose name is not targeted by any dimension
in the shock point equal to its base value — only parameters named by a
shocked dimension present in the base mapping can change. -/
theorem claim_C9_untargeted_params_unchanged (base_params : List (String × ℚ))
    (stress_point : List (RiskDimension × ℚ)) (inst : Instrument)
    (factor : Option Factor) (p : String)
    (h : ∀ dv ∈ stress_point, RiskDimension.param_name dv.1 ≠ p) :
    dictGet (StressTestEngine.apply_stress base_params stress_point inst factor) p
      = dictGet base_params p :=
  foldl_applyStressStep_frame base_params inst factor p stress_point h base_params

/-- C9 witness: a volatility-only shock leaves the price parameter at its
base value. -/
theorem claim_C9_witness :
    (∀ dv ∈ [(RiskDimension.volatility, (1 : ℚ)/2)],
      RiskDimension.param_name dv.1 ≠ "price") ∧
    dictGet
      (StressTestEngine.apply_stress [("price", 150), ("volatility", 1/5)]
        [(RiskDimension.volatility, 1/2)]
        { type_name := "Option", price := some 150, iv := some (1/5), dte := none,
          risk_free := none, dividend_yield := none, yield_attr := none,
          underlying := some "AAPL", symbol := none } none) "price"
      = dictGet [("price", (150 : ℚ)), ("volatility", 1/5)] "price" :=
  ⟨by decide, claim_C9_untargeted_params_unchanged
    [("price", 150), ("volatility", 1/5)] [(RiskDimension.volatility, 1/2)]
    { type_name := "Option", price := some 150, iv := some (1/5), dte := none,
      risk_free := none, dividend_yield := none, yield_attr := none,
      underlying := some "AAPL", symbol := none } none "price" (by decide)⟩

/-- C8: the stressed time parameter is `max 0 (t - s)` — clamped at zero,
an absolute subtraction for any attached factor (the multiplier is not
applied), and independent of any relativity flag (which never reaches
`_apply_stress`). -/
theorem claim_C8_time_decay_clamped (base_params : List (String × ℚ))
    (t s : ℚ) (inst : Instrument) (factor : Option Factor)
    (h : dictGet base_params "time" = some t) :
    dictGet
      (StressTestEngine.apply_stress base_params [(RiskDimension.time, s)]
        inst factor) "time"
      = some (max 0 (t - s)) := by
  unfold StressTestEngine.apply_stress
  rw [List.foldl_cons, List.foldl_nil]
  unfold applyStressStep
  have hc : dictContains base_params (RiskDimension.time.param_name) = true := by
    simp [dictContains, RiskDimension.param_name, h]
  rw [if_pos hc, if_pos rfl, dictGet_dictInsert]
  simp [RiskDimension.param_name, h]

/-- C8 witness: shocking a 5-day time parameter by 30 days yields exactly
0, never negative, even with a factor attached. -/
theorem claim_C8_witness :
    dictGet [("time", (5 : ℚ))] "time" = some 5 ∧
    dictGet
      (StressTestEngine.apply_stress [("time", 5)] [(RiskDimension.time, 30)]
        { type_name := "Option", price := none, iv := none, dte := some 5,
          risk_free := none, dividend_yield := none, yield_attr := none,
          underlying := some "AAPL", symbol := none }
        (some { name := "beta", underlying_factors := [("AAPL", 1/2)],
                benchmark_symbol := some "SPX" })) "time"
      = some (max 0 ((5 : ℚ) - 30)) :=
  ⟨by decide, claim_C8_time_decay_clamped [("time", 5)] 5 30
    { type_name := "Option", price := none, iv := none, dte := some 5,
      risk_free := none, dividend_yield := none, yield_attr := none,
      underlying := some "AAPL", symbol := none }
    (some { name := "beta", underlying_factors := [("AAPL", 1/2)],
            benchmark_symbol := some "SPX" }) (by decide)⟩

/-- C2 (amended): for every non-TIME dimension, `_apply_stress` computes
`base * (1 + shock * multiplier)` — it always indexes
`stress_calculators[True]`, the relative calculator, and the originating
`RiskArray.is_relative` flag never reaches it (stress points carry only
dimension and value).  Both calculators are wired in the engine's
constructor dict, but the absolute one is never selected. -/
theorem claim_C2_relative_hardcoded (base_params : List (String × ℚ))
    (d : RiskDimension) (s b : ℚ) (inst : Instrument) (factor : Option Factor)
    (hd : d ≠ RiskDimension.time)
    (hb : dictGet base_params d.param_name = some b) :
    dictGet (StressTestEngine.apply_stress base_params [(d, s)] inst factor)
        d.param_name
      = some (RelativeStressCalculator.calculate_stressed_value b s
          (StressTestEngine.factor_value inst factor)) ∧
    stress_calculators true = RelativeStressCalculator.calculate_stressed_value ∧
    stress_calculators false = AbsoluteStressCalculator.calculate_stressed_value := by
  refine ⟨?_, rfl, rfl⟩
  unfold StressTestEngine.apply_stress
  rw [List.foldl_cons, List.foldl_nil]
  unfold applyStressStep
  have hc : dictContains base_params d.param_name = true := by
    simp [dictContains, hb]
  rw [if_pos hc, if_neg hd, dictGet_dictInsert, if_pos rfl]
  simp [hb, stress_calculators]

/-- An option instrument with volatility 2/5 on AAPL, and a beta factor
mapping AAPL to the multiplier 1/2, used by the C2 witness. -/
def instrumentW2 : Instrument :=
  { type_name := "Option", price := none, iv := some (2/5), dte := none,
    risk_free := none, dividend_yield := none, yield_attr := none,
    underlying := some "AAPL", symbol := none }

def factorW2 : Factor :=
  { name := "beta", underlying_factors := [("AAPL", 1/2)],
    benchmark_symbol := some "SPX" }

/-- C2 witness: a volatility shock of +50% on a base volatility of 2/5
with multiplier 1/2 stresses relatively, to
`2/5 * (1 + 1/2 * 1/2) = 1/2`. -/
theorem claim_C2_witness :
    (RiskDimension.volatility ≠ RiskDimension.time) ∧
    dictGet [("volatility", (2 : ℚ)/5)] RiskDimension.volatility.param_name
      = some (2/5) ∧
    dictGet
      (StressTestEngine.apply_stress [("volatility", 2/5)]
        [(RiskDimension.volatility, 1/2)] instrumentW2 (some factorW2))
      RiskDimension.volatility.param_name
      = some (RelativeStressCalculator.calculate_stressed_value (2/5) (1/2)
          (StressTestEngine.factor_value instrumentW2 (some factorW2))) :=
  ⟨by decide, by simp [dictGet, RiskDimension.param_name],
    (claim_C2_relative_hardcoded [("volatility", 2/5)] RiskDimension.volatility
      (1/2) (2/5) instrumentW2 (some factorW2)
      (by decide) (by simp [dictGet, RiskDimension.param_name])).1⟩

/-- The instrument, engine and scenario showing C2 false as stated: one
stock at price 2, quantity 1, no registered pricer, and a PRICE risk
array `[1.0]` explicitly flagged `is_relative = False`. -/
def instrumentC2 : Instrument :=
  { type_name := "Stock", price := some 2, iv := none, dte := none,
    risk_free := none, dividend_yield := none, yield_attr := none,
    underlying := none, symbol := some "AAPL" }

def engineC2 : StressTestEngine :=
  { portfolio := { positions := [{ id := "p1", instrument := instrumentC2,
                                   quantity := 1 }] },
    pricing_models := [] }

def scenarioC2 : StressScenario :=
  { name := "abs"
    risk_arrays := [{ dimension := RiskDimension.price, values := [1],
                      is_relative := false }]
    factor := none
    aggregation_type := AggregationType.by_underlying
    underlying_risk_arrays := none }

/-- C2 counterexample: with `is_relative = False`, shock 1.0 on base price
2 the claim predicts the absolute calculator, stressed price `2 + 1 = 3`
and P&L `1*3 - 1*2 = 1`; the engine actually produces P&L 2 (stressed
price `2 * (1 + 1) = 4`) — the relative calculator was used despite the
flag. -/
theorem claim_C2_counterexample :
    (engineC2.run_scenario scenarioC2).map
        (fun r => r.position_results.map (fun pr => pr.pnl_values))
      = Except.ok [[2]] ∧
    AbsoluteStressCalculator.calculate_stressed_value 2 1 1 = 3 ∧
    (1 : ℚ) * 3 - 1 * 2 = 1 ∧
    ¬((2 : ℚ) = 1) := by
  refine ⟨by with_unfolding_all rfl, by norm_num
    [AbsoluteStressCalculator.calculate_stressed_value], by norm_num, by norm_num⟩

/-- The instrument exposing `dividend_yield` (and not an attribute named
`yield`), plus its twin exposing only the attribute named `yield`. -/
def instrumentC4 : Instrument :=
  { type_name := "Stock", price := some 100, iv := none, dte := none,
    risk_free := none, dividend_yield := some (1/50), yield_attr := none,
    underlying := none, symbol := some "AAPL" }

def instrumentC4b : Instrument :=
  { type_name := "Stock", price := some 100, iv := none, dte := none,
    risk_free := none, dividend_yield := none, yield_attr := some (1/50),
    underlying := none, symbol := some "AAPL" }

/-- C4: evaluation at the failing input.  The source probes
`hasattr(instrument, 'yield')` but reads `instrument.dividend_yield`, so
an instrument exposing `dividend_yield` (but no attribute named `yield`)
gets NO `dividend_yield` key in its base-parameter mapping — contradicting
the claim's "contains the key iff the instrument exposes dividend_yield";
and an instrument exposing only `yield` raises `AttributeError` instead of
omitting the key without error. -/
theorem claim_C4_dividend_probe_mismatch :
    instrumentC4.dividend_yield = some (1/50) ∧
    StressTestEngine.get_instrument_params instrumentC4
      = Except.ok [("price", 100)] ∧
    dictGet [("price", (100 : ℚ))] "dividend_yield" = none ∧
    instrumentC4b.dividend_yield = none ∧
    StressTestEngine.get_instrument_params instrumentC4b
      = Except.error "AttributeError: dividend_yield" := by
  refine ⟨rfl, by with_unfolding_all rfl, by with_unfolding_all rfl, rfl,
    by with_unfolding_all rfl⟩

/-- A position result, a beta factor, and a one-position engine/scenario
pair whose scenario carries that factor with BY_FACTOR aggregation. -/
def resultC1 : StressResult :=
  { scenario_name := "s"
    position_id := "p1"
    underlying := "AAPL"
    instrument_type := "Stock"
    quantity := 1
    base_value := 150
    stress_points := [1]
    pnl_values := [1, 2] }

def factorC1 : Factor :=
  { name := "beta", underlying_factors := [("AAPL", 1/2)],
    benchmark_symbol := some "SPX" }

def engineC1 : StressTestEngine :=
  { portfolio := { positions := [{ id := "p1", instrument := instrumentC2,
                                   quantity := 1 }] }
    pricing_models := [] }

def scenarioC1 : StressScenario :=
  { name := "beta_scen"
    risk_arrays := [{ dimension := RiskDimension.price, values := [1/10],
                      is_relative := true }]
    factor := some factorC1
    aggregation_type := AggregationType.by_factor
    underlying_risk_arrays := none }

/-- C1: evaluation at the failing input.  `_calculate_aggregation` has no
BY_FACTOR branch, so for BY_FACTOR it returns the EMPTY mapping — not one
bucket keyed by the factor name (or `"no_factor"`) holding the elementwise
sum of the positions' P&L arrays, as the claim states.  The full
`run_scenario` pipeline with a beta factor attached likewise hands back
empty `aggregation_results`. -/
theorem claim_C1_by_factor_unhandled :
    StressTestEngine.calculate_aggregation [resultC1] AggregationType.by_factor
      = Except.ok [] ∧
    dictGet ([] : List (String × List ℚ)) "beta" = none ∧
    dictGet ([] : List (String × List ℚ)) "no_factor" = none ∧
    (engineC1.run_scenario scenarioC1).map (fun r => r.aggregation_results)
      = Except.ok [] := by
  refine ⟨rfl, rfl, rfl, by with_unfolding_all rfl⟩

/-- The EPR scenario of C6 (`n_steps = 2`, no base level, EPR 20% for
AAPL) and an engine over an empty portfolio to run it. -/
def scenarioC6 : StressScenario :=
  build_epr_stress_scenario "x" [("AAPL", 1/5)] 2 false

def engineC6 : StressTestEngine :=
  { portfolio := { positions := [] }, pricing_models := [] }

/-- C6: `build_epr_stress_scenario "x" {AAPL: 0.20} n_steps=2
include_base=false` yields the single AAPL PRICE risk array
`[-0.20, -0.10, 0.10, 0.20]` in that order, and running the idiosyncratic
scenario yields the canonical fraction axis `[-1.0, -0.5, 0.5, 1.0]`
(each value divided by the maximum absolute value of the first
underlying's array) as `stress_points`. -/
theorem claim_C6_epr_fraction_axis :
    scenarioC6.underlying_risk_arrays
      = some [("AAPL",
          [{ dimension := RiskDimension.price,
             values := [-(1/5), -(1/10), 1/10, 1/5],
             is_relative := true }])] ∧
    (engineC6.run_scenario scenarioC6).map (fun r => r.stress_points)
      = Except.ok [-1, -(1/2), 1/2, 1] ∧
    StressTestEngine.stress_fractions scenarioC6
      = Except.ok [(-(1/5)) / (1/5), (-(1/10)) / (1/5), (1/10) / (1/5),
          (1/5) / (1/5)] := by
  refine ⟨by with_unfolding_all rfl, by with_unfolding_all rfl,
    by with_unfolding_all rfl⟩

/-- Option-level view of one BY_UNDERLYING accumulation step: `none`
(bucket unseen) seeds with zeros then adds; `some` adds. -/
def optAdd : Option (List ℚ) → List ℚ → Option (List ℚ)
  | none, b => some (zipAdd (zerosLike b) b)
  | some a, b => some (zipAdd a b)

/-- The elementwise sum of a list of equal-length P&L arrays, as the spec
describes aggregation: fold `+` over the position axis starting from a
zero array of the common length. -/
def elemSum (pnls : List (List ℚ)) (L : ℕ) : List ℚ :=
  pnls.foldl zipAdd (List.replicate L 0)

theorem zipAdd_length (a b : List ℚ) :
    (zipAdd a b).length = min a.length b.length :=
  List.length_zipWith _ _ _

theorem zipAdd_zerosLike (b : List ℚ) : zipAdd (zerosLike b) b = b := by
  induction b with
  | nil => rfl
  | cons x t ih =>
    show List.zipWith _ (List.replicate (t.length + 1) 0) (x :: t) = x :: t
    rw [List.replicate_succ, List.zipWith_cons_cons, zero_add]
    exact congrArg (x :: ·) ih

theorem zipAdd_replicate_zero {L : ℕ} {b : List ℚ} (h : b.length = L) :
    zipAdd (List.replicate L 0) b = b := by
  have := zipAdd_zerosLike b
  rwa [zerosLike, h] at this

theorem elemSum_length (pnls : List (List ℚ)) (L : ℕ)
    (h : ∀ p ∈ pnls, p.length = L) : (elemSum pnls L).length = L := by
  unfold elemSum
  have key : ∀ (ps : List (List ℚ)) (acc : List ℚ), (∀ p ∈ ps, p.length = L) →
      acc.length = L → (ps.foldl zipAdd acc).length = L := by
    intro ps
    induction ps with
    | nil => intro acc h2 hacc; exact hacc
    | cons p rest ih =>
      intro acc h2 hacc
      rw [List.foldl_cons]
      exact ih _ (fun q hq => h2 q (List.mem_cons_of_mem _ hq))
        (by rw [zipAdd_length, hacc, h2 p (List.mem_cons_self _ _), Nat.min_self])
  exact key pnls _ h (List.length_replicate _ _)

/-- Lifting a fold of `optAdd` over a `some` accumulator to a plain
`zipAdd` fold. -/
theorem foldl_optAdd_some (ps : List (List ℚ)) :
    ∀ a : List ℚ, ps.foldl optAdd (some a) = some (ps.foldl zipAdd a) := by
  induction ps with
  | nil => intro a; rfl
  | cons p rest ih => intro a; rw [List.foldl_cons, List.foldl_cons]; exact ih _

/-- A non-empty equal-length fold of `optAdd` from `none` is exactly the
elementwise sum. -/
theorem foldl_optAdd_eq_elemSum (ps : List (List ℚ)) (L : ℕ)
    (hne : ps ≠ []) (h : ∀ p ∈ ps, p.length = L) :
    ps.foldl optAdd none = some (elemSum ps L) := by
  match ps with
  | [] => exact absurd rfl hne
  | p :: rest =>
    rw [List.foldl_cons]
    show (rest.foldl optAdd (some (zipAdd (zerosLike p) p))) = _
    rw [zipAdd_zerosLike, foldl_optAdd_some]
    unfold elemSum
    rw [List.foldl_cons, zipAdd_replicate_zero (h p (List.mem_cons_self _ _))]

/-- The key invariant of the BY_UNDERLYING loop: looking up `U` after the
fold gives the `optAdd` fold of exactly the P&L arrays of the results
whose underlying is `U`, started from the previous binding of `U`. -/
theorem dictGet_foldl_aggStep (rs : List StressResult) :
    ∀ (acc : List (String × List ℚ)) (U : String),
      dictGet (rs.foldl aggStep acc) U
        = ((rs.filter (fun r => decide (r.underlying = U))).map
            (fun r => r.pnl_values)).foldl optAdd (dictGet acc U) := by
  induction rs with
  | nil => intro acc U; rfl
  | cons r rest ih =>
    intro acc U
    rw [List.foldl_cons]
    by_cases hU : r.underlying = U
    · rw [List.filter_cons_of_pos (by simpa using hU), List.map_cons,
        List.foldl_cons, ih]
      congr 1
      subst hU
      unfold aggStep optAdd
      cases hg : dictGet acc r.underlying with
      | none => rw [dictGet_dictInsert, if_pos rfl]
      | some cur => rw [dictGet_dictInsert, if_pos rfl]
    · rw [List.filter_cons_of_neg (by simpa using hU), ih]
      congr 1
      unfold aggStep
      have hne : ¬(U = r.underlying) := fun h2 => hU h2.symm
      cases hg : dictGet acc r.underlying with
      | none => rw [dictGet_dictInsert, if_neg hne]
      | some cur => rw [dictGet_dictInsert, if_neg hne]

/-- C7: for a non-empty result list with equal-length P&L arrays,
BY_UNDERLYING aggregates, per underlying `U`, the elementwise sum over
exactly the positions whose underlying is `U`; TOTAL yields the single
bucket `"total"` with the elementwise sum over all positions; all
aggregated arrays keep the common input length. -/
theorem claim_C7_aggregation_sums (rs : List StressResult) (L : ℕ)
    (hne : rs ≠ []) (hL : ∀ r ∈ rs, r.pnl_values.length = L) :
    (∃ agg, StressTestEngine.calculate_aggregation rs
        AggregationType.by_underlying = Except.ok agg ∧
      (∀ U, U ∈ rs.map (fun r => r.underlying) →
        dictGet agg U = some (elemSum
          ((rs.filter (fun r => decide (r.underlying = U))).map
            (fun r => r.pnl_values)) L)) ∧
      (∀ U arr, dictGet agg U = some arr → arr.length = L)) ∧
    StressTestEngine.calculate_aggregation rs AggregationType.total
      = Except.ok [("total", elemSum (rs.map (fun r => r.pnl_values)) L)] ∧
    (elemSum (rs.map (fun r => r.pnl_values)) L).length = L := by
  refine ⟨⟨rs.foldl aggStep [], rfl, ?_, ?_⟩, ?_, ?_⟩
  · intro U hU
    rcases List.mem_map.mp hU with ⟨r, hr, hrU⟩
    have hfilter : r ∈ rs.filter (fun r => decide (r.underlying = U)) :=
      List.mem_filter.mpr ⟨hr, by simpa using hrU⟩
    have hfne : (rs.filter (fun r => decide (r.underlying = U))).map
        (fun r => r.pnl_values) ≠ [] := by
      intro hnil
      rw [List.map_eq_nil_iff] at hnil
      rw [hnil] at hfilter
      cases hfilter
    have hflen : ∀ p ∈ (rs.filter (fun r => decide (r.underlying = U))).map
        (fun r => r.pnl_values), p.length = L := by
      intro p hp
      rcases List.mem_map.mp hp with ⟨q, hq, hqp⟩
      exact hqp ▸ hL q (List.mem_of_mem_filter hq)
    rw [dictGet_foldl_aggStep, dictGet_nil,
      foldl_optAdd_eq_elemSum _ L hfne hflen]
  · intro U arr harr
    rw [dictGet_foldl_aggStep, dictGet_nil] at harr
    cases hfil : (rs.filter (fun r => decide (r.underlying = U))).map
        (fun r => r.pnl_values) with
    | nil => rw [hfil] at harr; cases harr
    | cons p ps =>
      have hflen : ∀ q ∈ (rs.filter (fun r => decide (r.underlying = U))).map
          (fun r => r.pnl_values), q.length = L := by
        intro q hq
        rcases List.mem_map.mp hq with ⟨w, hw, hwq⟩
        exact hwq ▸ hL w (List.mem_of_mem_filter hw)
      rw [foldl_optAdd_eq_elemSum _ L (by rw [hfil]; exact List.cons_ne_nil _ _)
        hflen] at harr
      cases harr
      exact elemSum_length _ L hflen
  · match rs, hne with
    | r0 :: rest, _ =>
      show Except.ok _ = _
      have hz : zerosLike r0.pnl_values = List.replicate L 0 := by
        rw [zerosLike, hL r0 (List.mem_cons_self _ _)]
      rw [hz]
      unfold elemSum
      rw [List.foldl_map]
  · exact elemSum_length _ L (by
      intro p hp
      rcases List.mem_map.mp hp with ⟨q, hq, hqp⟩
      exact hqp ▸ hL q hq)

/-- Two concrete results on underlyings AAPL, MSFT, AAPL used by the C7
witness. -/
def resultW7a : StressResult :=
  { scenario_name := "s", position_id := "p1", underlying := "AAPL",
    instrument_type := "Stock", quantity := 1, base_value := 10,
    stress_points := [1, 2], pnl_values := [1, 2] }

def resultW7b : StressResult :=
  { scenario_name := "s", position_id := "p2", underlying := "MSFT",
    instrument_type := "Stock", quantity := 1, base_value := 10,
    stress_points := [1, 2], pnl_values := [10, 20] }

def resultW7c : StressResult :=
  { scenario_name := "s", position_id := "p3", underlying := "AAPL",
    instrument_type := "Stock", quantity := 2, base_value := 10,
    stress_points := [1, 2], pnl_values := [100, 200] }

/-- C7 witness: three positions (AAPL, MSFT, AAPL) with arrays of length
2; the AAPL bucket sums exactly the two AAPL arrays, and TOTAL sums all
three. -/
theorem claim_C7_witness :
    ([resultW7a, resultW7b, resultW7c] ≠ ([] : List StressResult)) ∧
    (∀ r ∈ [resultW7a, resultW7b, resultW7c], r.pnl_values.length = 2) ∧
    (∃ agg, StressTestEngine.calculate_aggregation
        [resultW7a, resultW7b, resultW7c]
        AggregationType.by_underlying = Except.ok agg ∧
      (∀ U, U ∈ [resultW7a, resultW7b, resultW7c].map (fun r => r.underlying) →
        dictGet agg U = some (elemSum
          (([resultW7a, resultW7b, resultW7c].filter
              (fun r => decide (r.underlying = U))).map
            (fun r => r.pnl_values)) 2)) ∧
      (∀ U arr, dictGet agg U = some arr → arr.length = 2)) ∧
    StressTestEngine.calculate_aggregation [resultW7a, resultW7b, resultW7c]
        AggregationType.total
      = Except.ok [("total", elemSum
          ([resultW7a, resultW7b, resultW7c].map (fun r => r.pnl_values)) 2)] :=
  ⟨by simp, by simp [resultW7a, resultW7b, resultW7c],
    (claim_C7_aggregation_sums [resultW7a, resultW7b, resultW7c] 2 (by simp)
      (by simp [resultW7a, resultW7b, resultW7c])).1,
    (claim_C7_aggregation_sums [resultW7a, resultW7b, resultW7c] 2 (by simp)
      (by simp [resultW7a, resultW7b, resultW7c])).2.1⟩

/-- The spec's description of multi-array expansion: the cartesian
product of the arrays' values, first array varying slowest and last
fastest, each point mapping each array's dimension to its chosen
value. -/
def specCartPoints : List RiskArray → List (List (RiskDimension × ℚ))
  | [] => [[]]
  | ra :: rest =>
    ra.values.flatMap (fun v =>
      (specCartPoints rest).map (fun pt => (ra.dimension, v) :: pt))

theorem specCartPoints_length (ras : List RiskArray) :
    (specCartPoints ras).length
      = (ras.map (fun ra => ra.values.length)).prod := by
  induction ras with
  | nil => rfl
  | cons ra rest ih =>
    show (ra.values.flatMap _).length = _
    rw [List.length_flatMap]
    calc (ra.values.map (fun v =>
            ((specCartPoints rest).map (fun pt => (ra.dimension, v) :: pt)).length)).sum
        = (ra.values.map (fun _ => (specCartPoints rest).length)).sum := by
          simp [List.length_map]
      _ = ra.values.length * (specCartPoints rest).length := by
          rw [List.map_const', List.sum_replicate, smul_eq_mul]
      _ = (List.map (fun ra => ra.values.length) (ra :: rest)).prod := by
          rw [List.map_cons, List.prod_cons, ih]

/-- Disjoint-key prefixes pass through the point-building fold of
`get_stress_points` untouched. -/
theorem foldl_point_append (zs : List (RiskArray × ℚ)) :
    ∀ (acc1 acc2 : List (RiskDimension × ℚ)),
      (∀ q ∈ zs, dictContains acc1 q.1.dimension = false) →
      zs.foldl (fun point p => dictInsert point p.1.dimension p.2) (acc1 ++ acc2)
        = acc1 ++ zs.foldl (fun point p => dictInsert point p.1.dimension p.2) acc2 := by
  induction zs with
  | nil => intro acc1 acc2 h; rfl
  | cons q rest ih =>
    intro acc1 acc2 h
    rw [List.foldl_cons, List.foldl_cons,
      dictInsert_append_left acc1 acc2 q.1.dimension q.2
        (h q (List.mem_cons_self _ _))]
    exact ih acc1 _ (fun q2 h2 => h q2 (List.mem_cons_of_mem _ h2))

/-- With pairwise-distinct dimensions, the multi-array branch of
`get_stress_points` builds exactly the spec's lexicographic product. -/
theorem cartProd_map_build_eq_specCartPoints (ras : List RiskArray)
    (hdist : List.Pairwise (fun a b => a.dimension ≠ b.dimension) ras) :
    (cartProd (ras.map (fun ra => ra.values))).map (fun combo =>
        (List.zip ras combo).foldl
          (fun point p => dictInsert point p.1.dimension p.2) [])
      = specCartPoints ras := by
  induction ras with
  | nil => rfl
  | cons ra rest ih =>
    rcases List.pairwise_cons.mp hdist with ⟨hd, hp⟩
    rw [List.map_cons]
    show ((ra.values.flatMap fun v =>
        (cartProd (rest.map (fun ra => ra.values))).map
          (fun combo => v :: combo)).map _) = _
    rw [List.map_flatMap]
    have hfun : ∀ v : ℚ,
        (((cartProd (rest.map (fun ra => ra.values))).map
            (fun combo => v :: combo)).map (fun combo =>
          (List.zip (ra :: rest) combo).foldl
            (fun point p => dictInsert point p.1.dimension p.2) []))
        = (specCartPoints rest).map (fun pt => (ra.dimension, v) :: pt) := by
      intro v
      rw [List.map_map]
      have hc : ∀ c : List ℚ,
          (List.zip (ra :: rest) (v :: c)).foldl
            (fun point p => dictInsert point p.1.dimension p.2) []
          = (ra.dimension, v) ::
            (List.zip rest c).foldl
              (fun point p => dictInsert point p.1.dimension p.2) [] := by
        intro c
        rw [List.zip_cons_cons, List.foldl_cons]
        have h0 : dictInsert ([] : List (RiskDimension × ℚ)) ra.dimension v
            = [(ra.dimension, v)] ++ [] := by
          simp [dictInsert, dictContains, dictGet]
        rw [h0, foldl_point_append, List.singleton_append]
        intro q hq
        have hmem : q.1 ∈ rest := (List.of_mem_zip hq).1
        have hne := hd q.1 hmem
        simp [dictContains, dictGet_cons, hne, dictGet_nil]
      calc (cartProd (rest.map (fun ra => ra.values))).map
            ((fun combo => (List.zip (ra :: rest) combo).foldl
              (fun point p => dictInsert point p.1.dimension p.2) []) ∘
              (fun combo => v :: combo))
          = (cartProd (rest.map (fun ra => ra.values))).map (fun c =>
              (ra.dimension, v) ::
                (List.zip rest c).foldl
                  (fun point p => dictInsert point p.1.dimension p.2) []) := by
            exact List.map_congr_left (fun c _ => hc c)
        _ = ((cartProd (rest.map (fun ra => ra.values))).map (fun c =>
              (List.zip rest c).foldl
                (fun point p => dictInsert point p.1.dimension p.2) [])).map
              (fun pt => (ra.dimension, v) :: pt) := by
            rw [List.map_map]; rfl
        _ = (specCartPoints rest).map (fun pt => (ra.dimension, v) :: pt) := by
            rw [ih hp]
    calc ra.values.flatMap (fun v =>
          ((cartProd (rest.map (fun ra => ra.values))).map
            (fun combo => v :: combo)).map (fun combo =>
              (List.zip (ra :: rest) combo).foldl
                (fun point p => dictInsert point p.1.dimension p.2) []))
        = ra.values.flatMap (fun v =>
            (specCartPoints rest).map (fun pt => (ra.dimension, v) :: pt)) := by
          exact congrArg _ (funext hfun)
      _ = specCartPoints (ra :: rest) := rfl

/-- C5: a non-idiosyncratic scenario with at least two risk arrays (of
pairwise-distinct dimensions) expands to exactly the cartesian product of
the arrays' values — `m * n` points for lengths `m, n` — with the first
array varying slowest and the last fastest, each point mapping each
array's dimension to its chosen value. -/
theorem claim_C5_cartesian_expansion (s : StressScenario)
    (hidio : s.is_idiosyncratic = false)
    (hlen : 2 ≤ s.risk_arrays.length)
    (hdist : List.Pairwise (fun a b => a.dimension ≠ b.dimension)
      s.risk_arrays) :
    s.get_stress_points = specCartPoints s.risk_arrays ∧
    s.get_stress_points.length
      = (s.risk_arrays.map (fun ra => ra.values.length)).prod := by
  have hshape : ∃ ra1 ra2 rest, s.risk_arrays = ra1 :: ra2 :: rest := by
    match hra : s.risk_arrays, hlen with
    | ra1 :: ra2 :: rest, _ => exact ⟨ra1, ra2, rest, rfl⟩
  rcases hshape with ⟨ra1, ra2, rest, hra⟩
  have heq : s.get_stress_points
      = (cartProd (s.risk_arrays.map (fun ra => ra.values))).map (fun combo =>
          (List.zip s.risk_arrays combo).foldl
            (fun point p => dictInsert point p.1.dimension p.2) []) := by
    unfold StressScenario.get_stress_points
    simp only [hidio, Bool.false_eq_true, if_false]
    rw [hra]
  have h1 : s.get_stress_points = specCartPoints s.risk_arrays := by
    rw [heq, cartProd_map_build_eq_specCartPoints s.risk_arrays hdist]
  exact ⟨h1, by rw [h1, specCartPoints_length]⟩

/-- The two-array scenario of the C5 witness: PRICE values `[1, 2, 3]`
and VOLATILITY values `[10, 20]`. -/
def scenarioW5 : StressScenario :=
  { name := "pv"
    risk_arrays := [{ dimension := RiskDimension.price, values := [1, 2, 3],
                      is_relative := true },
                    { dimension := RiskDimension.volatility, values := [10, 20],
                      is_relative := true }]
    factor := none
    aggregation_type := AggregationType.by_underlying
    underlying_risk_arrays := none }

/-- C5 witness: the 3×2 scenario expands to the 6-point lexicographic
product. -/
theorem claim_C5_witness :
    scenarioW5.is_idiosyncratic = false ∧
    2 ≤ scenarioW5.risk_arrays.length ∧
    List.Pairwise (fun a b : RiskArray => a.dimension ≠ b.dimension)
      scenarioW5.risk_arrays ∧
    (scenarioW5.get_stress_points = specCartPoints scenarioW5.risk_arrays ∧
     scenarioW5.get_stress_points.length
       = (scenarioW5.risk_arrays.map (fun ra => ra.values.length)).prod) :=
  ⟨rfl, by decide, by decide,
    claim_C5_cartesian_expansion scenarioW5 rfl (by decide) (by decide)⟩

/-- A position whose instrument has no `price` attribute can never yield
an `ok` `StressResult`: both the per-point P&L and the record's
`base_value` read `instrument.price`. -/
theorem run_position_error (e : StressTestEngine) (scen : StressScenario)
    (sps : List (List (RiskDimension × ℚ))) (svs : List ℚ) (pos : Position)
    (h : pos.instrument.price = none) :
    ∀ r, StressTestEngine.run_position e scen sps svs pos ≠ Except.ok r := by
  intro r hok
  unfold StressTestEngine.run_position at hok
  have hprice : pos.instrument.get_price
      = Except.error "AttributeError: price" := by
    unfold Instrument.get_price
    rw [h]
  cases hm : mapExcept (e.position_pnl scen pos) sps with
  | error msg => rw [hm] at hok; exact Except.noConfusion hok
  | ok pnl =>
    rw [hm, hprice] at hok
    exact Except.noConfusion hok

/-- The idiosyncratic analogue of `run_position_error`. -/
theorem idio_position_result_error (e : StressTestEngine)
    (scen : StressScenario) (fr : List ℚ) (pos : Position)
    (h : pos.instrument.price = none) :
    ∀ r, StressTestEngine.idio_position_result e scen fr pos ≠ Except.ok r := by
  intro r hok
  unfold StressTestEngine.idio_position_result at hok
  have hprice : pos.instrument.get_price
      = Except.error "AttributeError: price" := by
    unfold Instrument.get_price
    rw [h]
  rw [hprice] at hok
  split at hok
  · exact Except.noConfusion hok
  · exact Except.noConfusion hok

/-- Embeds `run_scenario` can never succeed while the portfolio holds a position
whose instrument lacks the `price` attribute. -/
theorem run_scenario_error_of_priceless (e : StressTestEngine)
    (scenario : StressScenario) (pos : Position)
    (hmem : pos ∈ e.portfolio.positions) (h : pos.instrument.price = none) :
    ∀ res, e.run_scenario scenario ≠ Except.ok res := by
  intro res hok
  unfold StressTestEngine.run_scenario at hok
  split at hok
  · unfold StressTestEngine.run_idiosyncratic_scenario at hok
    split at hok
    · exact Except.noConfusion hok
    · rename_i fr hf
      split at hok
      · exact Except.noConfusion hok
      · rename_i prs hm
        rcases mapExcept_ok_forall hm pos hmem with ⟨y, hy⟩
        exact idio_position_result_error e scenario fr pos h y hy
  · split at hok
    · exact Except.noConfusion hok
    · rename_i svs hd
      split at hok
      · exact Except.noConfusion hok
      · rename_i prs hm
        rcases mapExcept_ok_forall hm pos hmem with ⟨y, hy⟩
        exact run_position_error e scenario scenario.get_stress_points svs pos
          h y hy

/-- Stressing an empty base-parameter mapping is a no-op: no parameter
name is present, so every dimension of the point is skipped. -/
theorem apply_stress_empty (sp : List (RiskDimension × ℚ)) (inst : Instrument)
    (factor : Option Factor) :
    StressTestEngine.apply_stress [] sp inst factor = [] := by
  unfold StressTestEngine.apply_stress
  induction sp with
  | nil => rfl
  | cons dv rest ih =>
    rw [List.foldl_cons]
    have hstep : applyStressStep [] inst factor [] dv = [] := by
      unfold applyStressStep
      rw [if_neg]
      simp [dictContains, dictGet]
    rw [hstep]
    exact ih

/-- C3 (amended): an instrument exposing none of the five named
parameters (and no attribute named `yield`) still gets an empty
base-parameter mapping without error, stressing that empty mapping is a
no-op, and the default pricer path returns 0 — but `run_scenario` does
NOT succeed: its P&L and `base_value` computations read
`instrument.price` unconditionally, so a portfolio holding such a
position makes every `run_scenario` call raise `AttributeError` instead
of producing a `StressResult`. -/
theorem claim_C3_priceless_participation (inst : Instrument)
    (h1 : inst.price = none) (h2 : inst.iv = none) (h3 : inst.dte = none)
    (h4 : inst.risk_free = none) (h5 : inst.dividend_yield = none)
    (h6 : inst.yield_attr = none) :
    StressTestEngine.get_instrument_params inst = Except.ok [] ∧
    (∀ (sp : List (RiskDimension × ℚ)) (factor : Option Factor),
      StressTestEngine.apply_stress [] sp inst factor = []) ∧
    (∀ e : StressTestEngine, dictGet e.pricing_models inst.type_name = none →
      e.price_instrument inst [] = 0) ∧
    (∀ (e : StressTestEngine) (scenario : StressScenario) (pos : Position),
      pos ∈ e.portfolio.positions → pos.instrument = inst →
      ∀ res, e.run_scenario scenario ≠ Except.ok res) := by
  refine ⟨?_, ?_, ?_, ?_⟩
  · unfold StressTestEngine.get_instrument_params
    rw [h1, h2, h3, h4, h6]
    rfl
  · intro sp factor
    exact apply_stress_empty sp inst factor
  · intro e he
    unfold StressTestEngine.price_instrument
    rw [he]
    rfl
  · intro e scenario pos hmem hinst res
    exact run_scenario_error_of_priceless e scenario pos hmem
      (by rw [hinst]; exact h1) res

/-- The capability-free instrument of C3 and a one-position engine and
simple price scenario over it. -/
def instrumentC3 : Instrument :=
  { type_name := "Widget", price := none, iv := none, dte := none,
    risk_free := none, dividend_yield := none, yield_attr := none,
    underlying := none, symbol := none }

def positionC3 : Position :=
  { id := "p1", instrument := instrumentC3, quantity := 1 }

def engineC3 : StressTestEngine :=
  { portfolio := { positions := [positionC3] }, pricing_models := [] }

def scenarioC3 : StressScenario :=
  { name := "px"
    risk_arrays := [{ dimension := RiskDimension.price, values := [1/10],
                      is_relative := true }]
    factor := none
    aggregation_type := AggregationType.by_underlying
    underlying_risk_arrays := none }

/-- C3 counterexample: the claim says `run_scenario` still succeeds with
no error for an instrument exposing none of the five parameters; on the
code it raises `AttributeError` (the P&L step reads `instrument.price`). -/
theorem claim_C3_counterexample :
    engineC3.run_scenario scenarioC3 = Except.error "AttributeError: price" := by
  with_unfolding_all rfl

/-- C3 witness: the amended claim instantiated at the concrete
capability-free instrument. -/
theorem claim_C3_witness :
    instrumentC3.price = none ∧ instrumentC3.iv = none ∧
    instrumentC3.dte = none ∧ instrumentC3.risk_free = none ∧
    instrumentC3.dividend_yield = none ∧ instrumentC3.yield_attr = none ∧
    StressTestEngine.get_instrument_params instrumentC3 = Except.ok [] ∧
    engineC3.price_instrument instrumentC3 [] = 0 ∧
    engineC3.run_scenario scenarioC3
      ≠ Except.ok { scenario_name := "px", stress_points := [1/10],
                    position_results := [], aggregation_results := [] } :=
  ⟨rfl, rfl, rfl, rfl, rfl, rfl,
    (claim_C3_priceless_participation instrumentC3 rfl rfl rfl rfl rfl rfl).1,
    (claim_C3_priceless_participation instrumentC3 rfl rfl rfl rfl rfl
      rfl).2.2.1 engineC3 rfl,
    (claim_C3_priceless_participation instrumentC3 rfl rfl rfl rfl rfl
      rfl).2.2.2 engineC3 scenarioC3 positionC3 (List.mem_singleton.mpr rfl)
      rfl _⟩

/-- Mapping back each single-dimension point to its value recovers the
original value list. -/
theorem mapExcept_map_id {α γ : Type} (f : γ → Except String α) (g : α → γ)
    (h : ∀ v, f (g v) = Except.ok v) :
    ∀ vs : List α, mapExcept f (vs.map g) = Except.ok vs := by
  intro vs
  induction vs with
  | nil => rfl
  | cons v rest ih =>
    rw [List.map_cons]
    unfold mapExcept
    rw [h v, ih]

/-- For a single-array non-idiosyncratic scenario, the display axis is
exactly the array's own values. -/
theorem display_values_single (s : StressScenario) (ra : RiskArray)
    (hra : s.risk_arrays = [ra]) (hidio : s.is_idiosyncratic = false) :
    StressTestEngine.display_values s s.get_stress_points
      = Except.ok ra.values := by
  have hpts : s.get_stress_points = ra.values.map (fun v => [(ra.dimension, v)]) := by
    unfold StressScenario.get_stress_points
    simp only [hidio, Bool.false_eq_true, if_false]
    rw [hra]
  unfold StressTestEngine.display_values
  rw [hra, hpts]
  exact mapExcept_map_id _ _ (fun v => by rw [dictGet_cons, if_pos rfl]) ra.values

/-- C10: on an empty portfolio, `run_scenario` (here for a plain
single-array scenario) raises IndexError under TOTAL aggregation —
`_calculate_aggregation` indexes `position_results[0]` — while under
BY_UNDERLYING it succeeds with an empty `aggregation_results` mapping. -/
theorem claim_C10_empty_portfolio (e : StressTestEngine) (s : StressScenario)
    (hport : e.portfolio.positions = [])
    (hidio : s.is_idiosyncratic = false)
    (ra : RiskArray) (hra : s.risk_arrays = [ra]) :
    (s.aggregation_type = AggregationType.total →
      e.run_scenario s = Except.error "IndexError: list index out of range") ∧
    (s.aggregation_type = AggregationType.by_underlying →
      e.run_scenario s = Except.ok
        { scenario_name := s.name, stress_points := ra.values,
          position_results := [], aggregation_results := [] }) := by
  have hdisp := display_values_single s ra hra hidio
  constructor
  · intro htot
    unfold StressTestEngine.run_scenario
    rw [if_neg (by rw [hidio]; exact Bool.false_ne_true), hdisp, hport, htot]
    rfl
  · intro hby
    unfold StressTestEngine.run_scenario
    rw [if_neg (by rw [hidio]; exact Bool.false_ne_true), hdisp, hport, hby]
    rfl

/-- The empty-portfolio engine and the two single-array scenarios
(differing only in aggregation type) of the C10 witness. -/
def engineW10 : StressTestEngine :=
  { portfolio := { positions := [] }, pricing_models := [] }

def raW10 : RiskArray :=
  { dimension := RiskDimension.price, values := [1/10], is_relative := true }

def scenarioW10t : StressScenario :=
  { name := "w10", risk_arrays := [raW10], factor := none,
    aggregation_type := AggregationType.total, underlying_risk_arrays := none }

def scenarioW10u : StressScenario :=
  { name := "w10", risk_arrays := [raW10], factor := none,
    aggregation_type := AggregationType.by_underlying,
    underlying_risk_arrays := none }

/-- C10 witness: the empty portfolio raises under TOTAL and returns empty
aggregation results under BY_UNDERLYING. -/
theorem claim_C10_witness :
    engineW10.portfolio.positions = [] ∧
    scenarioW10t.is_idiosyncratic = false ∧
    scenarioW10t.risk_arrays = [raW10] ∧
    engineW10.run_scenario scenarioW10t
      = Except.error "IndexError: list index out of range" ∧
    engineW10.run_scenario scenarioW10u
      = Except.ok { scenario_name := scenarioW10u.name,
                    stress_points := raW10.values, position_results := [],
                    aggregation_results := [] } :=
  ⟨rfl, rfl, rfl,
    (claim_C10_empty_portfolio engineW10 scenarioW10t rfl rfl raW10 rfl).1 rfl,
    (claim_C10_empty_portfolio engineW10 scenarioW10u rfl rfl raW10 rfl).2 rfl⟩
